import Mathlib

/-!
# UART Port Connection Manager — verification of the spec against `src/api/index.py`

Shallow embedding of the UART port manager. Python dicts become association
lists with Python-dict semantics (assignment updates in place or appends,
`del` removes the key, lookup finds the entry). The flask transport layer
(request parsing, `jsonify` serialization, HTTP status selection) is
modelled as plain input values and a structured result type; the module's
imported names (source line 1) are modelled separately because the source
omits `jsonify` from them, which matters for the `get_ports` route.

External effects of pyserial and the OS are inputs to each operation:
whether `os.path.exists(port)` holds, whether `serial.Serial(...)` raises a
`SerialException`, and whether `.close()` raises. These are exactly the
points where the source can take its `except` branches.
-/

namespace Uart

/-- pyserial parity constants: `PARITY_NONE`, `PARITY_EVEN`, `PARITY_ODD`. -/
inductive SerialParity where
  | N : SerialParity
  | E : SerialParity
  | O : SerialParity
deriving DecidableEq, Repr

/-- The pyserial handle state that the manager reads back: the effective
baud rate, the effective parity constant, and the `is_open` flag (which the
environment may drop to `false` when the device disappears). -/
structure SerialConn where
  baudrate : Nat
  parity : SerialParity
  is_open : Bool
deriving DecidableEq, Repr

/-- `UART_PORTS` (source line 19). -/
def UART_PORTS : List String := ["/dev/ttyAMA0", "/dev/ttyAMA1", "/dev/ttyAMA2"]

/-- `VALID_BAUD_RATES` (source line 22). -/
def VALID_BAUD_RATES : List Nat :=
  [9600, 19200, 38400, 57600, 115200, 230400, 460800, 921600]

/-- `VALID_PARITY` (source line 23). -/
def VALID_PARITY : List String := ["none", "even", "odd"]

/-- One value of the `uart_configs` dict: `{'baud_rate': _, 'parity': _, 'status': _}`. -/
structure PortConfig where
  baud_rate : Nat
  parity : String
  status : String
deriving DecidableEq, Repr

/-- Python dict as an association list. -/
abbrev Dict (α : Type) := List (String × α)

/-- Python `m.get(k)` / `k in m`: the value at the first entry for `k`. -/
def dictGet (m : Dict α) (k : String) : Option α :=
  match m with
  | [] => none
  | e :: t => if k = e.1 then some e.2 else dictGet t k

/-- Python `m[k] = v`: replace the entry if the key is present, else append. -/
def dictSet (m : Dict α) (k : String) (v : α) : Dict α :=
  if (dictGet m k).isSome then
    m.map (fun e => if e.1 = k then (e.1, v) else e)
  else
    m ++ [(k, v)]

/-- Python `del m[k]`. -/
def dictDel (m : Dict α) (k : String) : Dict α :=
  m.filter (fun e => e.1 ≠ k)

/-- Python `m[k][field] = v` on a dict of `PortConfig`s: update the record at
key `k` in place. A missing key would raise `KeyError` in Python; every call
site in the source first validates `k ∈ UART_PORTS`, and the config dict
keeps those three keys for the whole process lifetime, so the missing-key
branch is never taken there; here the update is a no-op when the key is
absent and the theorems carry the key-present fact where it matters. -/
def dictUpd (m : Dict PortConfig) (k : String) (f : PortConfig → PortConfig) :
    Dict PortConfig :=
  m.map (fun e => if e.1 = k then (e.1, f e.2) else e)

/-- The manager's whole mutable state: `uart_configs` (source lines 26-30)
and `active_connections` (source line 33). -/
structure UartState where
  uart_configs : Dict PortConfig
  active_connections : Dict SerialConn
deriving DecidableEq, Repr

/-- The initial `uart_configs` dict (source lines 26-30). -/
def initial_uart_configs : Dict PortConfig :=
  [("/dev/ttyAMA0", ⟨9600, "none", "disconnected"⟩),
   ("/dev/ttyAMA1", ⟨9600, "none", "disconnected"⟩),
   ("/dev/ttyAMA2", ⟨9600, "none", "disconnected"⟩)]

/-- Process start: default configs, no active connections. -/
def initState : UartState := ⟨initial_uart_configs, []⟩

/-- Python `str.lower`, modelled character-wise with `Char.toLower`, which
agrees with Python on the ASCII letters the parity names use. -/
def pyLower (s : String) : String := ⟨s.data.map Char.toLower⟩

/-- `get_serial_parity` (source lines 35-42): `parity_map.get(parity_str.lower(),
serial.PARITY_NONE)` — the three-entry dict lookup with default written out. -/
def get_serial_parity (parity_str : String) : SerialParity :=
  if pyLower parity_str = "none" then .N
  else if pyLower parity_str = "even" then .E
  else if pyLower parity_str = "odd" then .O
  else .N

/-- Environment of one `configure_uart_port` call: does `os.path.exists(port)`
hold; does closing the prior handle raise `serial.SerialException` (and with
which message); does `serial.Serial(...)` raise (and with which message). -/
structure ConfigureEnv where
  deviceExists : Bool
  closeErr : Option String
  openErr : Option String
deriving DecidableEq, Repr

/-- `configure_uart_port` (source lines 44-88). Returns the new state and the
`(success, message)` pair. Branches, in source order:
1. a prior connection is closed and deleted; if `.close()` raises, the
   `except serial.SerialException` handler at line 81 runs with the `del`
   never executed: status becomes `error`, failure is returned, the stale
   handle stays in `active_connections`;
2. if the device path does not exist, return failure (NOTE: this branch,
   lines 52-55, does not touch `uart_configs`);
3. open the device; on `SerialException`, set status to `error` and fail;
4. on success store the handle, set baud/parity/status, return success. -/
def configure_uart_port (env : ConfigureEnv) (st : UartState) (port : String)
    (baud_rate : Nat) (parity : String) : UartState × Bool × String :=
  match (dictGet st.active_connections port).isSome, env.closeErr with
  | true, some msg =>
      let cfgs := dictUpd st.uart_configs port (fun c => { c with status := "error" })
      ({ st with uart_configs := cfgs },
       false, "Failed to configure " ++ port ++ ": " ++ msg)
  | hadConn, _ =>
      let st1 : UartState :=
        if hadConn then
          { st with active_connections := dictDel st.active_connections port }
        else st
      if !env.deviceExists then
        (st1, false, "Port " ++ port ++ " does not exist")
      else
        match env.openErr with
        | some msg =>
            let cfgs := dictUpd st1.uart_configs port (fun c => { c with status := "error" })
            ({ st1 with uart_configs := cfgs },
             false, "Failed to configure " ++ port ++ ": " ++ msg)
        | none =>
            let ser : SerialConn := ⟨baud_rate, get_serial_parity parity, true⟩
            let cfgs := dictUpd st1.uart_configs port (fun _ => ⟨baud_rate, parity, "connected"⟩)
            (⟨cfgs, dictSet st1.active_connections port ser⟩,
             true, "Port " ++ port ++ " configured successfully")

/-- Structured result of one HTTP route, as built by the source's `jsonify`
calls: `err code msg` is a `{'success': False, 'message': msg}` response
with the given HTTP status, `ok msg config` a success response carrying the
port's config snapshot, `okTest msg details` the test route's success
response with its `details` object. -/
inductive ApiResult where
  | err : Nat → String → ApiResult
  | ok : String → PortConfig → ApiResult
  | okTest : String → SerialConn → ApiResult
deriving DecidableEq, Repr

/-- `configure_port` route (source lines 123-160), with the parsed request
body `{port, baud_rate, parity}` given as arguments. Validation order is the
source's: port, then baud rate, then parity; only then is
`configure_uart_port` called. On success the response carries
`uart_configs[port]` (present whenever the success branch is reached, since
`port ∈ UART_PORTS` was validated and the dict keeps those keys; a missing
key would raise `KeyError` into the route's generic handler, line 158). -/
def configure_port (env : ConfigureEnv) (st : UartState) (port : String)
    (baud_rate : Nat) (parity : String) : UartState × ApiResult :=
  if port ∉ UART_PORTS then
    (st, .err 400 "Invalid port specified")
  else if baud_rate ∉ VALID_BAUD_RATES then
    (st, .err 400 "Invalid baud rate")
  else if parity ∉ VALID_PARITY then
    (st, .err 400 "Invalid parity setting")
  else
    match configure_uart_port env st port baud_rate parity with
    | (st2, true, msg) =>
        match dictGet st2.uart_configs port with
        | some c => (st2, .ok msg c)
        | none => (st2, .err 500 "Server error: KeyError")
    | (st2, false, msg) => (st2, .err 500 msg)

/-- `disconnect_port` route (source lines 162-186). If a connection exists
its `.close()` may raise; the exception reaches the route's generic
`except` (line 184), which returns a failure: the `del`, the status update
and the success return are all skipped. Otherwise the connection (if any)
is removed and the status is driven to `disconnected`. -/
def disconnect_port (closeErr : Option String) (st : UartState) (port : String) :
    UartState × ApiResult :=
  if port ∉ UART_PORTS then
    (st, .err 400 "Invalid port specified")
  else
    match (dictGet st.active_connections port).isSome, closeErr with
    | true, some msg =>
        (st, .err 500 ("Error disconnecting port: " ++ msg))
    | hadConn, _ =>
        let st1 : UartState :=
          if hadConn then
            { st with active_connections := dictDel st.active_connections port }
          else st
        match dictGet st1.uart_configs port with
        | some _ =>
            let cfgs := dictUpd st1.uart_configs port (fun c => { c with status := "disconnected" })
            let st2 : UartState := { st1 with uart_configs := cfgs }
            match dictGet st2.uart_configs port with
            | some c => (st2, .ok ("Port " ++ port ++ " disconnected") c)
            | none => (st2, .err 500 "Error disconnecting port: KeyError")
        | none => (st1, .err 500 "Error disconnecting port: KeyError")

/-- `test_port` route (source lines 188-216). Never mutates state: invalid
port and missing connection are 400 failures, a handle with `is_open` false
is a 500 failure, an open handle returns success with the details object. -/
def test_port (st : UartState) (port : String) : UartState × ApiResult :=
  if port ∉ UART_PORTS then
    (st, .err 400 "Invalid port specified")
  else
    match dictGet st.active_connections port with
    | none => (st, .err 400 "Port not connected")
    | some ser =>
        if ser.is_open then
          (st, .okTest ("Port " ++ port ++ " is active and ready") ser)
        else
          (st, .err 500 "Port is not open")

/-- The names the module imports from flask (source line 1):
`from flask import Flask, redirect, url_for, render_template`. -/
def flaskImportedNames : List String :=
  ["Flask", "redirect", "url_for", "render_template"]

/-- Every global name bound in the module: the flask imports, the other
imported modules (lines 2-6), and the module-level definitions. -/
def moduleGlobalNames : List String :=
  flaskImportedNames ++
  ["CORS", "serial", "json", "os", "logging", "app", "logger",
   "UART_PORTS", "VALID_BAUD_RATES", "VALID_PARITY", "uart_configs",
   "active_connections", "get_serial_parity", "configure_uart_port",
   "index", "catch_all", "get_ports", "configure_port", "disconnect_port",
   "test_port"]

/-- The payload `get_ports` is written to return: the full config dict plus
the two static enumerations. -/
structure PortsSnapshot where
  ports : Dict PortConfig
  available_baud_rates : List Nat
  available_parity : List String
deriving DecidableEq, Repr

/-- `get_ports` route (source lines 114-121). Its body is a single
`jsonify(...)` call with no `try`, so Python's name resolution decides the
outcome: `jsonify` must be bound among the module's globals (or builtins,
where it is not) or the call raises `NameError` before any value is built. -/
def get_ports (st : UartState) : UartState × Except String PortsSnapshot :=
  if "jsonify" ∈ moduleGlobalNames then
    (st, .ok ⟨st.uart_configs, VALID_BAUD_RATES, VALID_PARITY⟩)
  else
    (st, .error "NameError: name jsonify is not defined")

/-- One state-mutating manager call together with its environment. -/
inductive Op where
  | configure : ConfigureEnv → String → Nat → String → Op
  | disconnect : Option String → String → Op

/-- Run one operation for its state effect. -/
def runOp (st : UartState) (op : Op) : UartState :=
  match op with
  | .configure env p b par => (configure_port env st p b par).1
  | .disconnect ce p => (disconnect_port ce st p).1

/-- Run a sequence of operations from process start. -/
def runOps (ops : List Op) : UartState := ops.foldl runOp initState

/-- The operation's `.close()` call (if reached) does not raise. -/
def opCloseOk : Op → Bool
  | .configure env _ _ _ => env.closeErr.isNone
  | .disconnect ce _ => ce.isNone

/-- The `status` field of the port's config, if the port has one. -/
def statusOf (st : UartState) (p : String) : Option String :=
  (dictGet st.uart_configs p).map PortConfig.status

/-- The spec's round-trip invariant, per state: a live handle exists for a
port exactly when that port's status is `connected`. -/
def connStatusInv (st : UartState) : Bool :=
  UART_PORTS.all fun p =>
    (dictGet st.active_connections p).isSome == (statusOf st p == some "connected")

/-- Every known port still has its config entry. -/
def WfKeys (st : UartState) : Prop :=
  ∀ p ∈ UART_PORTS, (dictGet st.uart_configs p).isSome

/-- The direction of the invariant the code does maintain (in runs whose
closes do not raise): a live handle implies status `connected`. -/
def ConnSound (st : UartState) : Prop :=
  ∀ p, (dictGet st.active_connections p).isSome → statusOf st p = some "connected"

section DictLemmas

variable {α : Type}

theorem dictGet_replace_self (m : Dict α) (k : String) (v : α) :
    dictGet (m.map (fun e => if e.1 = k then (e.1, v) else e)) k
      = (dictGet m k).map (fun _ => v) := by
  induction m with
  | nil => simp [dictGet]
  | cons e t ih =>
    by_cases hk : e.1 = k
    · simp [dictGet, hk]
    · have hk2 : ¬ k = e.1 := fun h => hk h.symm
      simp [dictGet, hk, hk2, ih]

theorem dictGet_replace_ne (m : Dict α) (k : String) (v : α) (q : String)
    (hq : q ≠ k) :
    dictGet (m.map (fun e => if e.1 = k then (e.1, v) else e)) q
      = dictGet m q := by
  induction m with
  | nil => simp [dictGet]
  | cons e t ih =>
    by_cases hk : e.1 = k
    · simp [dictGet, hk, hq, ih]
    · by_cases he : q = e.1
      · simp [dictGet, hk, he]
      · simp [dictGet, hk, he, ih]

theorem dictGet_append (m l : Dict α) (q : String) :
    dictGet (m ++ l) q
      = match dictGet m q with
        | some v => some v
        | none => dictGet l q := by
  induction m with
  | nil => simp [dictGet]
  | cons e t ih =>
    by_cases he : q = e.1
    · simp [dictGet, he]
    · simp [dictGet, he, ih]

theorem dictGet_dictSet_self (m : Dict α) (k : String) (v : α) :
    dictGet (dictSet m k v) k = some v := by
  unfold dictSet
  split
  · rename_i h
    rw [dictGet_replace_self]
    obtain ⟨w, hw⟩ := Option.isSome_iff_exists.mp h
    simp [hw]
  · rename_i h
    have h0 : dictGet m k = none := by
      cases hmk : dictGet m k with
      | none => rfl
      | some w => rw [hmk] at h; simp at h
    rw [dictGet_append, h0]
    simp [dictGet]

theorem dictGet_dictSet_ne (m : Dict α) (k : String) (v : α) (q : String)
    (hq : q ≠ k) : dictGet (dictSet m k v) q = dictGet m q := by
  unfold dictSet
  split
  · exact dictGet_replace_ne m k v q hq
  · rw [dictGet_append]
    cases hmq : dictGet m q with
    | none => simp [dictGet, hq]
    | some w => simp

theorem dictGet_dictDel_self (m : Dict α) (k : String) :
    dictGet (dictDel m k) k = none := by
  induction m with
  | nil => simp [dictDel, dictGet]
  | cons e t ih =>
    by_cases hk : e.1 = k
    · simpa [dictDel, hk] using ih
    · have hk2 : ¬ k = e.1 := fun h => hk h.symm
      simpa [dictDel, dictGet, hk, hk2] using ih

theorem dictGet_dictDel_ne (m : Dict α) (k : String) (q : String)
    (hq : q ≠ k) : dictGet (dictDel m k) q = dictGet m q := by
  induction m with
  | nil => simp [dictDel]
  | cons e t ih =>
    by_cases hk : e.1 = k
    · simpa [dictDel, dictGet, hk, hq] using ih
    · by_cases he : q = e.1
      · simp [dictDel, dictGet, hk, he]
      · simpa [dictDel, dictGet, hk, he] using ih

end DictLemmas

theorem dictGet_dictUpd_self (m : Dict PortConfig) (k : String)
    (f : PortConfig → PortConfig) :
    dictGet (dictUpd m k f) k = (dictGet m k).map f := by
  induction m with
  | nil => simp [dictUpd, dictGet]
  | cons e t ih =>
    by_cases hk : e.1 = k
    · simp [dictUpd, dictGet, hk]
    · have hk2 : ¬ k = e.1 := fun h => hk h.symm
      simpa [dictUpd, dictGet, hk, hk2] using ih

theorem dictGet_dictUpd_ne (m : Dict PortConfig) (k : String)
    (f : PortConfig → PortConfig) (q : String) (hq : q ≠ k) :
    dictGet (dictUpd m k f) q = dictGet m q := by
  induction m with
  | nil => simp [dictUpd, dictGet]
  | cons e t ih =>
    by_cases hk : e.1 = k
    · simpa [dictUpd, dictGet, hk, hq] using ih
    · by_cases he : q = e.1
      · simp [dictUpd, dictGet, hk, he]
      · simpa [dictUpd, dictGet, hk, he] using ih

/-- The (corrected) inductive invariant: every known port keeps its config
entry, and every live handle belongs to a port whose status is `connected`. -/
def Inv (st : UartState) : Prop := WfKeys st ∧ ConnSound st

theorem inv_initState : Inv initState := by
  constructor
  · intro p hp
    fin_cases hp <;> simp [initState, initial_uart_configs, dictGet]
  · intro p hp
    simp [initState, dictGet] at hp

theorem disconnect_preserves (ce : Option String) (st : UartState) (p : String)
    (h : Inv st) : Inv (disconnect_port ce st p).1 := by
  obtain ⟨hw, hs⟩ := h
  by_cases hp : p ∈ UART_PORTS
  · cases hcon : (dictGet st.active_connections p).isSome with
    | true =>
      cases ce with
      | some msg =>
        have hres : (disconnect_port (some msg) st p).1 = st := by
          simp [disconnect_port, hp, hcon]
        rw [hres]; exact ⟨hw, hs⟩
      | none =>
        obtain ⟨c, hc0⟩ := Option.isSome_iff_exists.mp (hw p hp)
        have hres : (disconnect_port none st p).1 =
            ⟨dictUpd st.uart_configs p (fun c => { c with status := "disconnected" }),
             dictDel st.active_connections p⟩ := by
          simp [disconnect_port, hp, hcon, hc0, dictGet_dictUpd_self]
        rw [hres]
        constructor
        · intro q hq
          by_cases hqp : q = p
          · subst hqp
            simp [dictGet_dictUpd_self, hc0]
          · simpa [dictGet_dictUpd_ne _ _ _ _ hqp] using hw q hq
        · intro q hq
          by_cases hqp : q = p
          · subst hqp
            simp [dictGet_dictDel_self] at hq
          · simp only [dictGet_dictDel_ne _ _ _ hqp] at hq
            simpa [statusOf, dictGet_dictUpd_ne _ _ _ _ hqp] using hs q hq
    | false =>
      obtain ⟨c, hc0⟩ := Option.isSome_iff_exists.mp (hw p hp)
      have hres : (disconnect_port ce st p).1 =
          ⟨dictUpd st.uart_configs p (fun c => { c with status := "disconnected" }),
           st.active_connections⟩ := by
        cases ce <;>
          simp [disconnect_port, hp, hcon, hc0, dictGet_dictUpd_self]
      rw [hres]
      constructor
      · intro q hq
        by_cases hqp : q = p
        · subst hqp
          simp [dictGet_dictUpd_self, hc0]
        · simpa [dictGet_dictUpd_ne _ _ _ _ hqp] using hw q hq
      · intro q hq
        by_cases hqp : q = p
        · subst hqp
          simp [hq] at hcon
        · simpa [statusOf, dictGet_dictUpd_ne _ _ _ _ hqp] using hs q hq
  · have hres : (disconnect_port ce st p).1 = st := by
      simp [disconnect_port, hp]
    rw [hres]; exact ⟨hw, hs⟩

/-- Rebuilding `WfKeys` after a change that touches only port `p`. -/
theorem WfKeys_mod (st : UartState) (cfg2 : Dict PortConfig)
    (conns2 : Dict SerialConn) (p : String)
    (hp : (dictGet cfg2 p).isSome)
    (hq : ∀ q, q ≠ p → dictGet cfg2 q = dictGet st.uart_configs q)
    (hw : WfKeys st) : WfKeys ⟨cfg2, conns2⟩ := by
  intro q hqm
  by_cases hqp : q = p
  · subst hqp; exact hp
  · show (dictGet cfg2 q).isSome
    rw [hq q hqp]
    exact hw q hqm

/-- Rebuilding `ConnSound` after a change that touches only port `p`. -/
theorem ConnSound_mod (st : UartState) (cfg2 : Dict PortConfig)
    (conns2 : Dict SerialConn) (p : String)
    (hp : dictGet conns2 p = none ∨
      (dictGet cfg2 p).map PortConfig.status = some "connected")
    (hcq : ∀ q, q ≠ p → dictGet conns2 q = dictGet st.active_connections q)
    (hgq : ∀ q, q ≠ p → dictGet cfg2 q = dictGet st.uart_configs q)
    (hs : ConnSound st) : ConnSound ⟨cfg2, conns2⟩ := by
  intro q hq
  by_cases hqp : q = p
  · subst hqp
    cases hp with
    | inl h0 =>
      have : dictGet conns2 q = none := h0
      simp only [show (⟨cfg2, conns2⟩ : UartState).active_connections = conns2 from rfl,
        this, Option.isSome_none] at hq
      cases hq
    | inr h1 => simpa [statusOf] using h1
  · have h2 := hs q (by simpa [hcq q hqp] using hq)
    simpa [statusOf, hgq q hqp] using h2

theorem configure_preserves (env : ConfigureEnv) (st : UartState) (p : String)
    (b : Nat) (par : String) (hc : env.closeErr = none) (h : Inv st) :
    Inv (configure_port env st p b par).1 := by
  obtain ⟨hw, hs⟩ := h
  by_cases hp : p ∈ UART_PORTS
  case neg =>
    have hres : (configure_port env st p b par).1 = st := by
      simp [configure_port, hp]
    rw [hres]; exact ⟨hw, hs⟩
  by_cases hb : b ∈ VALID_BAUD_RATES
  case neg =>
    have hres : (configure_port env st p b par).1 = st := by
      simp [configure_port, hp, hb]
    rw [hres]; exact ⟨hw, hs⟩
  by_cases hpar : par ∈ VALID_PARITY
  case neg =>
    have hres : (configure_port env st p b par).1 = st := by
      simp [configure_port, hp, hb, hpar]
    rw [hres]; exact ⟨hw, hs⟩
  obtain ⟨c, hc0⟩ := Option.isSome_iff_exists.mp (hw p hp)
  have hcne : dictGet st.active_connections p = none →
      (dictGet st.active_connections p).isSome = false := by
    intro h0; rw [h0]; rfl
  cases hex : env.deviceExists with
  | false =>
    cases hcon : (dictGet st.active_connections p).isSome with
    | false =>
      have hres : (configure_port env st p b par).1 = st := by
        simp [configure_port, configure_uart_port, hp, hb, hpar, hc, hcon, hex]
      rw [hres]; exact ⟨hw, hs⟩
    | true =>
      have hres : (configure_port env st p b par).1 =
          ⟨st.uart_configs, dictDel st.active_connections p⟩ := by
        simp [configure_port, configure_uart_port, hp, hb, hpar, hc, hcon, hex]
      rw [hres]
      refine ⟨WfKeys_mod st _ _ p (by simp [hc0]) (fun q hq => rfl) hw,
        ConnSound_mod st _ _ p (Or.inl (dictGet_dictDel_self _ _))
          (fun q hq => dictGet_dictDel_ne _ _ _ hq) (fun q hq => rfl) hs⟩
  | true =>
    cases hopen : env.openErr with
    | some msg =>
      cases hcon : (dictGet st.active_connections p).isSome with
      | false =>
        have hres : (configure_port env st p b par).1 =
            ⟨dictUpd st.uart_configs p (fun c => { c with status := "error" }),
             st.active_connections⟩ := by
          simp [configure_port, configure_uart_port, hp, hb, hpar, hc, hcon, hex, hopen]
        rw [hres]
        have hcn : dictGet st.active_connections p = none := by
          cases h0 : dictGet st.active_connections p with
          | none => rfl
          | some w => rw [h0] at hcon; simp at hcon
        refine ⟨WfKeys_mod st _ _ p (by simp [dictGet_dictUpd_self, hc0])
            (fun q hq => dictGet_dictUpd_ne _ _ _ _ hq) hw,
          ConnSound_mod st _ _ p (Or.inl hcn) (fun q hq => rfl)
            (fun q hq => dictGet_dictUpd_ne _ _ _ _ hq) hs⟩
      | true =>
        have hres : (configure_port env st p b par).1 =
            ⟨dictUpd st.uart_configs p (fun c => { c with status := "error" }),
             dictDel st.active_connections p⟩ := by
          simp [configure_port, configure_uart_port, hp, hb, hpar, hc, hcon, hex, hopen]
        rw [hres]
        refine ⟨WfKeys_mod st _ _ p (by simp [dictGet_dictUpd_self, hc0])
            (fun q hq => dictGet_dictUpd_ne _ _ _ _ hq) hw,
          ConnSound_mod st _ _ p (Or.inl (dictGet_dictDel_self _ _))
            (fun q hq => dictGet_dictDel_ne _ _ _ hq)
            (fun q hq => dictGet_dictUpd_ne _ _ _ _ hq) hs⟩
    | none =>
      cases hcon : (dictGet st.active_connections p).isSome with
      | false =>
        have hres : (configure_port env st p b par).1 =
            ⟨dictUpd st.uart_configs p (fun _ => ⟨b, par, "connected"⟩),
             dictSet st.active_connections p ⟨b, get_serial_parity par, true⟩⟩ := by
          simp [configure_port, configure_uart_port, hp, hb, hpar, hc, hcon, hex, hopen,
            dictGet_dictUpd_self, hc0]
        rw [hres]
        refine ⟨WfKeys_mod st _ _ p (by simp [dictGet_dictUpd_self, hc0])
            (fun q hq => dictGet_dictUpd_ne _ _ _ _ hq) hw,
          ConnSound_mod st _ _ p
            (Or.inr (by simp [dictGet_dictUpd_self, hc0]))
            (fun q hq => dictGet_dictSet_ne _ _ _ _ hq)
            (fun q hq => dictGet_dictUpd_ne _ _ _ _ hq) hs⟩
      | true =>
        have hres : (configure_port env st p b par).1 =
            ⟨dictUpd st.uart_configs p (fun _ => ⟨b, par, "connected"⟩),
             dictSet (dictDel st.active_connections p) p
               ⟨b, get_serial_parity par, true⟩⟩ := by
          simp [configure_port, configure_uart_port, hp, hb, hpar, hc, hcon, hex, hopen,
            dictGet_dictUpd_self, hc0]
        rw [hres]
        refine ⟨WfKeys_mod st _ _ p (by simp [dictGet_dictUpd_self, hc0])
            (fun q hq => dictGet_dictUpd_ne _ _ _ _ hq) hw,
          ConnSound_mod st _ _ p
            (Or.inr (by simp [dictGet_dictUpd_self, hc0]))
            (fun q hq => by
              rw [dictGet_dictSet_ne _ _ _ _ hq, dictGet_dictDel_ne _ _ _ hq])
            (fun q hq => dictGet_dictUpd_ne _ _ _ _ hq) hs⟩

/-- Any sequence of nominal-close operations preserves the invariant. -/
theorem runOps_inv (ops : List Op) (h : ∀ op ∈ ops, opCloseOk op = true) :
    Inv (runOps ops) := by
  have main : ∀ (l : List Op) (st : UartState), (∀ op ∈ l, opCloseOk op = true) →
      Inv st → Inv (l.foldl runOp st) := by
    intro l
    induction l with
    | nil => intro st _ hst; simpa using hst
    | cons op t ih =>
      intro st hl hst
      have hop : opCloseOk op = true := hl op (List.mem_cons_self op t)
      have ht : ∀ o ∈ t, opCloseOk o = true := fun o ho => hl o (List.mem_cons_of_mem _ ho)
      simp only [List.foldl_cons]
      refine ih (runOp st op) ht ?_
      cases op with
      | configure env p b par =>
        have hcn : env.closeErr = none := by
          cases he : env.closeErr with
          | none => rfl
          | some w => rw [opCloseOk, he] at hop; simp at hop
        exact configure_preserves env st p b par hcn hst
      | disconnect ce p => exact disconnect_preserves ce st p hst
  exact main ops initState h inv_initState

/-! ## Claim theorems -/

/-- A state with a live, open handle on `/dev/ttyAMA0` and matching status
(as produced by a successful configure at 115200 baud, parity even). -/
def connectedA0State : UartState :=
  ⟨[("/dev/ttyAMA0", ⟨115200, "even", "connected"⟩),
    ("/dev/ttyAMA1", ⟨9600, "none", "disconnected"⟩),
    ("/dev/ttyAMA2", ⟨9600, "none", "disconnected"⟩)],
   [("/dev/ttyAMA0", ⟨115200, SerialParity.E, true⟩)]⟩

/-- The two-call sequence refuting the round-trip invariant: a successful
configure of `/dev/ttyAMA0`, then a configure of the same port after the
device path has disappeared (the second call closes and removes the handle,
then returns early without touching the status). -/
def invCexOps : List Op :=
  [Op.configure ⟨true, none, none⟩ "/dev/ttyAMA0" 115200 "even",
   Op.configure ⟨false, none, none⟩ "/dev/ttyAMA0" 9600 "none"]

/-- C1 fails on the code: after the `invCexOps` sequence of two Configure
calls, `/dev/ttyAMA0` has status `connected` but no ActiveConnection entry,
so the biconditional `handle exists ⇔ status = connected` is violated at an
observation point reachable by Configure/Disconnect calls alone. -/
theorem C1_counterexample :
    connStatusInv (runOps invCexOps) = false ∧
    dictGet (runOps invCexOps).active_connections "/dev/ttyAMA0" = none ∧
    statusOf (runOps invCexOps) "/dev/ttyAMA0" = some "connected" := by
  refine ⟨?_, ?_, ?_⟩ <;> rfl

/-- C1 (amended): after any sequence of Configure/Disconnect operations in
which no underlying `.close()` raises, one direction of the invariant holds:
every port with an ActiveConnection entry has status `connected` (and every
known port keeps its config entry). The converse direction is refuted by
`C1_counterexample`. -/
theorem C1_amended_conn_implies_connected (ops : List Op)
    (h : ops.all opCloseOk = true) (p : String)
    (hc : (dictGet (runOps ops).active_connections p).isSome = true) :
    statusOf (runOps ops) p = some "connected" :=
  (runOps_inv ops (fun op hop => List.all_eq_true.mp h op hop)).2 p hc

theorem C1_amended_witness :
    statusOf (runOps [Op.configure ⟨true, none, none⟩ "/dev/ttyAMA0" 115200 "even"])
      "/dev/ttyAMA0" = some "connected" :=
  C1_amended_conn_implies_connected
    [Op.configure ⟨true, none, none⟩ "/dev/ttyAMA0" 115200 "even"]
    (by rfl) "/dev/ttyAMA0" (by rfl)

/-- C2 fails on the code: a valid Configure of `/dev/ttyAMA1` whose device
path does not exist returns failure and creates no handle, but the status
stays `disconnected` — the early return at source lines 53-55 never sets
status to `error`. -/
theorem C2_counterexample :
    (configure_port ⟨false, none, none⟩ initState "/dev/ttyAMA1" 9600 "none").2
      = .err 500 "Port /dev/ttyAMA1 does not exist" ∧
    statusOf (configure_port ⟨false, none, none⟩ initState "/dev/ttyAMA1" 9600 "none").1
      "/dev/ttyAMA1" = some "disconnected" ∧
    some "disconnected" ≠ some "error" := by
  refine ⟨by rfl, by rfl, by decide⟩

/-- C2 (amended): for every valid Configure call whose device path does not
exist (and whose prior handle, if any, closes without raising), the call
returns the device-not-found failure and leaves no ActiveConnection entry
for the port, but the whole config dict — in particular the port's status —
is left exactly unchanged, not set to `error`. -/
theorem C2_amended_no_device (env : ConfigureEnv) (st : UartState) (p : String)
    (b : Nat) (par : String) (hp : p ∈ UART_PORTS) (hb : b ∈ VALID_BAUD_RATES)
    (hpar : par ∈ VALID_PARITY) (hex : env.deviceExists = false)
    (hcl : env.closeErr = none) :
    (configure_port env st p b par).2 = .err 500 ("Port " ++ p ++ " does not exist") ∧
    (configure_port env st p b par).1.uart_configs = st.uart_configs ∧
    dictGet (configure_port env st p b par).1.active_connections p = none := by
  cases hcon : (dictGet st.active_connections p).isSome with
  | true =>
    have hres : configure_port env st p b par =
        (⟨st.uart_configs, dictDel st.active_connections p⟩,
         .err 500 ("Port " ++ p ++ " does not exist")) := by
      simp [configure_port, configure_uart_port, hp, hb, hpar, hcl, hcon, hex]
    rw [hres]
    exact ⟨rfl, rfl, dictGet_dictDel_self _ _⟩
  | false =>
    have hcn : dictGet st.active_connections p = none := by
      cases h0 : dictGet st.active_connections p with
      | none => rfl
      | some w => rw [h0] at hcon; simp at hcon
    have hres : configure_port env st p b par =
        (st, .err 500 ("Port " ++ p ++ " does not exist")) := by
      simp [configure_port, configure_uart_port, hp, hb, hpar, hcl, hcon, hex]
    rw [hres]
    exact ⟨rfl, rfl, hcn⟩

theorem C2_amended_witness :
    (configure_port ⟨false, none, none⟩ initState "/dev/ttyAMA1" 9600 "none").2
      = .err 500 ("Port " ++ "/dev/ttyAMA1" ++ " does not exist") ∧
    (configure_port ⟨false, none, none⟩ initState "/dev/ttyAMA1" 9600 "none").1.uart_configs
      = initState.uart_configs ∧
    dictGet (configure_port ⟨false, none, none⟩ initState
      "/dev/ttyAMA1" 9600 "none").1.active_connections "/dev/ttyAMA1" = none :=
  C2_amended_no_device ⟨false, none, none⟩ initState "/dev/ttyAMA1" 9600 "none"
    (by decide) (by decide) (by decide) rfl rfl

/-- C3: the claim is right about the intent but the code is broken — the
module imports only `Flask, redirect, url_for, render_template` from flask
(source line 1) yet `get_ports` is a bare `jsonify(...)` call with no
`try`, so every `GET /api/ports` raises `NameError` instead of returning
the snapshot; no state is mutated. -/
theorem C3_get_ports_raises :
    (get_ports initState).2 = Except.error "NameError: name jsonify is not defined" ∧
    (get_ports initState).1 = initState ∧
    ("jsonify" ∈ moduleGlobalNames) = False := by
  refine ⟨rfl, rfl, by decide⟩

/-- C4 fails on the code: disconnecting `/dev/ttyAMA0` while its handle's
`.close()` raises returns a 500 failure — the generic `except` at source
line 184 surfaces the error — and the status stays `connected`; nothing is
swallowed and the state is untouched. -/
theorem C4_counterexample :
    (disconnect_port (some "device gone") connectedA0State "/dev/ttyAMA0").2
      = .err 500 "Error disconnecting port: device gone" ∧
    statusOf (disconnect_port (some "device gone") connectedA0State "/dev/ttyAMA0").1
      "/dev/ttyAMA0" = some "connected" := by
  exact ⟨rfl, rfl⟩

/-- C4 (amended): Disconnect on a known port returns success and drives the
status to `disconnected` whenever no handle exists or the handle closes
without raising; but when a handle exists and its `.close()` raises, the
error is surfaced as a failure result and the state — handle entry and
status — is left completely unchanged. -/
theorem C4_amended_disconnect (ce : Option String) (st : UartState) (p : String)
    (hp : p ∈ UART_PORTS) (hwp : (dictGet st.uart_configs p).isSome = true) :
    ((ce = none ∨ dictGet st.active_connections p = none) →
      statusOf (disconnect_port ce st p).1 p = some "disconnected" ∧
      ∃ c, (disconnect_port ce st p).2 = .ok ("Port " ++ p ++ " disconnected") c) ∧
    (∀ msg, ce = some msg → (dictGet st.active_connections p).isSome = true →
      (disconnect_port ce st p).1 = st ∧
      (disconnect_port ce st p).2 = .err 500 ("Error disconnecting port: " ++ msg)) := by
  obtain ⟨c, hc0⟩ := Option.isSome_iff_exists.mp hwp
  constructor
  · intro hok
    have hkey : dictGet
        (dictUpd st.uart_configs p (fun c => { c with status := "disconnected" })) p
        = some { c with status := "disconnected" } := by
      rw [dictGet_dictUpd_self, hc0]; rfl
    cases hcon : (dictGet st.active_connections p).isSome with
    | true =>
      have hce : ce = none := by
        cases hok with
        | inl h0 => exact h0
        | inr h0 => rw [h0] at hcon; simp at hcon
      subst hce
      have hres : disconnect_port none st p =
          (⟨dictUpd st.uart_configs p (fun c => { c with status := "disconnected" }),
            dictDel st.active_connections p⟩,
           .ok ("Port " ++ p ++ " disconnected") { c with status := "disconnected" }) := by
        simp [disconnect_port, hp, hcon, hc0, dictGet_dictUpd_self]
      rw [hres]
      exact ⟨by simp [statusOf, hkey], ⟨_, rfl⟩⟩
    | false =>
      have hres : disconnect_port ce st p =
          (⟨dictUpd st.uart_configs p (fun c => { c with status := "disconnected" }),
            st.active_connections⟩,
           .ok ("Port " ++ p ++ " disconnected") { c with status := "disconnected" }) := by
        cases ce <;> simp [disconnect_port, hp, hcon, hc0, dictGet_dictUpd_self]
      rw [hres]
      exact ⟨by simp [statusOf, hkey], ⟨_, rfl⟩⟩
  · intro msg hce hcon
    subst hce
    have hres : disconnect_port (some msg) st p =
        (st, .err 500 ("Error disconnecting port: " ++ msg)) := by
      simp [disconnect_port, hp, hcon]
    rw [hres]
    exact ⟨rfl, rfl⟩

theorem C4_amended_witness :
    statusOf (disconnect_port none connectedA0State "/dev/ttyAMA0").1
      "/dev/ttyAMA0" = some "disconnected" ∧
    ∃ c, (disconnect_port none connectedA0State "/dev/ttyAMA0").2
      = .ok ("Port " ++ "/dev/ttyAMA0" ++ " disconnected") c :=
  (C4_amended_disconnect none connectedA0State "/dev/ttyAMA0"
    (by decide) (by rfl)).1 (Or.inl rfl)

/-- C5: every operation given an identifier outside the fixed port set
returns the `Invalid port specified` validation failure and returns the
state untouched. -/
theorem C5_unknown_port_rejected (pid : String) (hp : pid ∉ UART_PORTS)
    (st : UartState) (env : ConfigureEnv) (b : Nat) (par : String)
    (ce : Option String) :
    configure_port env st pid b par = (st, .err 400 "Invalid port specified") ∧
    disconnect_port ce st pid = (st, .err 400 "Invalid port specified") ∧
    test_port st pid = (st, .err 400 "Invalid port specified") :=
  ⟨by simp [configure_port, hp], by simp [disconnect_port, hp],
   by simp [test_port, hp]⟩

theorem C5_unknown_port_rejected_witness :
    configure_port ⟨true, none, none⟩ initState "/dev/ttyUSB0" 9600 "none"
      = (initState, .err 400 "Invalid port specified") ∧
    disconnect_port none initState "/dev/ttyUSB0"
      = (initState, .err 400 "Invalid port specified") ∧
    test_port initState "/dev/ttyUSB0"
      = (initState, .err 400 "Invalid port specified") :=
  C5_unknown_port_rejected "/dev/ttyUSB0" (by decide) initState
    ⟨true, none, none⟩ 9600 "none" none

/-- C6: a fully valid Configure whose device exists and whose open (and
prior close, if any) succeeds stores the new handle, rewrites the port's
config to exactly the requested baud/parity with status `connected`, and
returns success carrying that updated config. -/
theorem C6_configure_success (env : ConfigureEnv) (st : UartState) (p : String)
    (b : Nat) (par : String) (hp : p ∈ UART_PORTS) (hb : b ∈ VALID_BAUD_RATES)
    (hpar : par ∈ VALID_PARITY) (hex : env.deviceExists = true)
    (hcl : env.closeErr = none) (hop : env.openErr = none)
    (hwp : (dictGet st.uart_configs p).isSome = true) :
    dictGet (configure_port env st p b par).1.active_connections p
      = some ⟨b, get_serial_parity par, true⟩ ∧
    dictGet (configure_port env st p b par).1.uart_configs p
      = some ⟨b, par, "connected"⟩ ∧
    (configure_port env st p b par).2
      = .ok ("Port " ++ p ++ " configured successfully") ⟨b, par, "connected"⟩ := by
  obtain ⟨c, hc0⟩ := Option.isSome_iff_exists.mp hwp
  cases hcon : (dictGet st.active_connections p).isSome with
  | true =>
    have hres : configure_port env st p b par =
        (⟨dictUpd st.uart_configs p (fun _ => ⟨b, par, "connected"⟩),
          dictSet (dictDel st.active_connections p) p
            ⟨b, get_serial_parity par, true⟩⟩,
         .ok ("Port " ++ p ++ " configured successfully") ⟨b, par, "connected"⟩) := by
      simp [configure_port, configure_uart_port, hp, hb, hpar, hcl, hcon, hex, hop,
        dictGet_dictUpd_self, hc0]
    rw [hres]
    exact ⟨dictGet_dictSet_self _ _ _, by simp [dictGet_dictUpd_self, hc0], rfl⟩
  | false =>
    have hres : configure_port env st p b par =
        (⟨dictUpd st.uart_configs p (fun _ => ⟨b, par, "connected"⟩),
          dictSet st.active_connections p ⟨b, get_serial_parity par, true⟩⟩,
         .ok ("Port " ++ p ++ " configured successfully") ⟨b, par, "connected"⟩) := by
      simp [configure_port, configure_uart_port, hp, hb, hpar, hcl, hcon, hex, hop,
        dictGet_dictUpd_self, hc0]
    rw [hres]
    exact ⟨dictGet_dictSet_self _ _ _, by simp [dictGet_dictUpd_self, hc0], rfl⟩

theorem C6_configure_success_witness :
    dictGet (configure_port ⟨true, none, none⟩ initState
      "/dev/ttyAMA0" 115200 "even").1.active_connections "/dev/ttyAMA0"
      = some ⟨115200, get_serial_parity "even", true⟩ ∧
    dictGet (configure_port ⟨true, none, none⟩ initState
      "/dev/ttyAMA0" 115200 "even").1.uart_configs "/dev/ttyAMA0"
      = some ⟨115200, "even", "connected"⟩ ∧
    (configure_port ⟨true, none, none⟩ initState "/dev/ttyAMA0" 115200 "even").2
      = .ok ("Port " ++ "/dev/ttyAMA0" ++ " configured successfully")
          ⟨115200, "even", "connected"⟩ :=
  C6_configure_success ⟨true, none, none⟩ initState "/dev/ttyAMA0" 115200 "even"
    (by decide) (by decide) (by decide) rfl rfl rfl (by rfl)

/-- C7: Test mutates nothing; it fails with the `Port not connected`
(NotConnectedError) response exactly when no ActiveConnection entry exists;
and when the entry exists but its handle reports closed, it fails with the
distinct `Port is not open` response — in particular the status and both
dicts are untouched. -/
theorem C7_test_port (st : UartState) (p : String) (hp : p ∈ UART_PORTS) :
    (test_port st p).1 = st ∧
    ((test_port st p).2 = .err 400 "Port not connected" ↔
      dictGet st.active_connections p = none) ∧
    (∀ ser, dictGet st.active_connections p = some ser → ser.is_open = false →
      (test_port st p).2 = .err 500 "Port is not open") := by
  cases hc : dictGet st.active_connections p with
  | none =>
    refine ⟨by simp [test_port, hp, hc], by simp [test_port, hp, hc], ?_⟩
    intro ser hser
    cases hser
  | some ser =>
    cases ho : ser.is_open with
    | true =>
      refine ⟨by simp [test_port, hp, hc, ho], by simp [test_port, hp, hc, ho], ?_⟩
      intro ser2 hser2 hopen2
      injection hser2 with h2
      rw [← h2, ho] at hopen2
      cases hopen2
    | false =>
      refine ⟨by simp [test_port, hp, hc, ho], by simp [test_port, hp, hc, ho], ?_⟩
      intro ser2 hser2 hopen2
      simp [test_port, hp, hc, ho]

theorem C7_test_port_witness :
    (test_port initState "/dev/ttyAMA2").1 = initState ∧
    ((test_port initState "/dev/ttyAMA2").2 = .err 400 "Port not connected" ↔
      dictGet initState.active_connections "/dev/ttyAMA2" = none) ∧
    (∀ ser, dictGet initState.active_connections "/dev/ttyAMA2" = some ser →
      ser.is_open = false →
      (test_port initState "/dev/ttyAMA2").2 = .err 500 "Port is not open") :=
  C7_test_port initState "/dev/ttyAMA2" (by decide)

/-- C8 fails on the code: with a live handle on `/dev/ttyAMA0` whose close
raises, the first Disconnect call leaves the status `connected` (not
`disconnected`) and returns a failure, refuting "status = disconnected
after each call" for that starting state. -/
theorem C8_counterexample :
    statusOf (disconnect_port (some "boom") connectedA0State "/dev/ttyAMA0").1
      "/dev/ttyAMA0" = some "connected" ∧
    (disconnect_port (some "boom") connectedA0State "/dev/ttyAMA0").2
      = .err 500 "Error disconnecting port: boom" := ⟨rfl, rfl⟩

/-- C8 (amended): provided the first call's close does not raise, Disconnect
is idempotent: the first call drives the status to `disconnected`, and a
second call — whatever its close environment, since no handle remains —
returns success, leaves the status `disconnected`, and leaves the state
exactly equal to the state after the first call. -/
theorem C8_amended_idempotent (st : UartState) (p : String) (ce2 : Option String)
    (hp : p ∈ UART_PORTS) (hwp : (dictGet st.uart_configs p).isSome = true) :
    statusOf (disconnect_port none st p).1 p = some "disconnected" ∧
    (disconnect_port ce2 (disconnect_port none st p).1 p).1
      = (disconnect_port none st p).1 ∧
    statusOf (disconnect_port ce2 (disconnect_port none st p).1 p).1 p
      = some "disconnected" ∧
    (∃ c, (disconnect_port ce2 (disconnect_port none st p).1 p).2
      = .ok ("Port " ++ p ++ " disconnected") c) := by
  obtain ⟨c, hc0⟩ := Option.isSome_iff_exists.mp hwp
  have hidem : dictUpd (dictUpd st.uart_configs p
        (fun c => { c with status := "disconnected" })) p
        (fun c => { c with status := "disconnected" })
      = dictUpd st.uart_configs p (fun c => { c with status := "disconnected" }) := by
    unfold dictUpd
    rw [List.map_map]
    have hgg : ((fun e => if e.1 = p then (e.1, { e.2 with status := "disconnected" }) else e) ∘
        (fun e : String × PortConfig =>
          if e.1 = p then (e.1, { e.2 with status := "disconnected" }) else e)) =
        (fun e : String × PortConfig =>
          if e.1 = p then (e.1, { e.2 with status := "disconnected" }) else e) := by
      funext e
      by_cases he : e.1 = p
      · simp [he]
      · simp [he]
    rw [hgg]
  have hkey : dictGet
      (dictUpd st.uart_configs p (fun c => { c with status := "disconnected" })) p
      = some { c with status := "disconnected" } := by
    rw [dictGet_dictUpd_self, hc0]; rfl
  have main : ∀ conns2 : Dict SerialConn, dictGet conns2 p = none →
      (disconnect_port none st p).1 =
        ⟨dictUpd st.uart_configs p (fun c => { c with status := "disconnected" }),
         conns2⟩ →
      statusOf (disconnect_port none st p).1 p = some "disconnected" ∧
      (disconnect_port ce2 (disconnect_port none st p).1 p).1
        = (disconnect_port none st p).1 ∧
      statusOf (disconnect_port ce2 (disconnect_port none st p).1 p).1 p
        = some "disconnected" ∧
      (∃ c2, (disconnect_port ce2 (disconnect_port none st p).1 p).2
        = .ok ("Port " ++ p ++ " disconnected") c2) := by
    intro conns2 hnone hres1
    have hres2 : disconnect_port ce2 (disconnect_port none st p).1 p =
        ((disconnect_port none st p).1,
         .ok ("Port " ++ p ++ " disconnected")
           { c with status := "disconnected" }) := by
      rw [hres1]
      cases ce2 <;>
        simp [disconnect_port, hp, hnone, hkey, dictGet_dictUpd_self, hidem]
    refine ⟨by rw [hres1]; simp [statusOf, hkey], ?_, ?_, ?_⟩
    · rw [hres2]
    · rw [hres2]
      rw [hres1]
      simp [statusOf, hkey]
    · rw [hres2]
      exact ⟨_, rfl⟩
  cases hcon : (dictGet st.active_connections p).isSome with
  | true =>
    have hres1 : disconnect_port none st p =
        (⟨dictUpd st.uart_configs p (fun c => { c with status := "disconnected" }),
          dictDel st.active_connections p⟩,
         .ok ("Port " ++ p ++ " disconnected") { c with status := "disconnected" }) := by
      simp [disconnect_port, hp, hcon, hc0, dictGet_dictUpd_self]
    exact main (dictDel st.active_connections p) (dictGet_dictDel_self _ _)
      (by rw [hres1])
  | false =>
    have hcn : dictGet st.active_connections p = none := by
      cases h0 : dictGet st.active_connections p with
      | none => rfl
      | some w => rw [h0] at hcon; simp at hcon
    have hres1 : disconnect_port none st p =
        (⟨dictUpd st.uart_configs p (fun c => { c with status := "disconnected" }),
          st.active_connections⟩,
         .ok ("Port " ++ p ++ " disconnected") { c with status := "disconnected" }) := by
      simp [disconnect_port, hp, hcon, hc0, dictGet_dictUpd_self]
    exact main st.active_connections hcn (by rw [hres1])

theorem C8_amended_idempotent_witness :
    statusOf (disconnect_port none connectedA0State "/dev/ttyAMA0").1
      "/dev/ttyAMA0" = some "disconnected" ∧
    (disconnect_port none (disconnect_port none connectedA0State "/dev/ttyAMA0").1
      "/dev/ttyAMA0").1 = (disconnect_port none connectedA0State "/dev/ttyAMA0").1 ∧
    statusOf (disconnect_port none
      (disconnect_port none connectedA0State "/dev/ttyAMA0").1 "/dev/ttyAMA0").1
      "/dev/ttyAMA0" = some "disconnected" ∧
    (∃ c, (disconnect_port none
      (disconnect_port none connectedA0State "/dev/ttyAMA0").1 "/dev/ttyAMA0").2
      = .ok ("Port " ++ "/dev/ttyAMA0" ++ " disconnected") c) :=
  C8_amended_idempotent connectedA0State "/dev/ttyAMA0" none (by decide) (by rfl)

/-- C9: Configure validates in the fixed order port, baud rate, parity: the
reported validation error is the first invalid field in that order, and in
every validation-failure case the state is returned unchanged. -/
theorem C9_validation_order (env : ConfigureEnv) (st : UartState) (p : String)
    (b : Nat) (par : String) :
    (p ∉ UART_PORTS →
      configure_port env st p b par = (st, .err 400 "Invalid port specified")) ∧
    (p ∈ UART_PORTS → b ∉ VALID_BAUD_RATES →
      configure_port env st p b par = (st, .err 400 "Invalid baud rate")) ∧
    (p ∈ UART_PORTS → b ∈ VALID_BAUD_RATES → par ∉ VALID_PARITY →
      configure_port env st p b par = (st, .err 400 "Invalid parity setting")) :=
  ⟨fun hp => by simp [configure_port, hp],
   fun hp hb => by simp [configure_port, hp, hb],
   fun hp hb hpar => by simp [configure_port, hp, hb, hpar]⟩

theorem C9_validation_order_witness :
    configure_port ⟨true, none, none⟩ initState "/dev/bad" 123 "bogus"
      = (initState, .err 400 "Invalid port specified") ∧
    configure_port ⟨true, none, none⟩ initState "/dev/ttyAMA0" 123 "bogus"
      = (initState, .err 400 "Invalid baud rate") :=
  ⟨(C9_validation_order ⟨true, none, none⟩ initState "/dev/bad" 123 "bogus").1
      (by decide),
   (C9_validation_order ⟨true, none, none⟩ initState "/dev/ttyAMA0" 123 "bogus").2.1
      (by decide) (by decide)⟩

/-- C10: `get_serial_parity` is total (it is a function into the three
pyserial constants) and case-insensitive: any casing of `none`/`even`/`odd`
maps to the matching constant, and every other string falls back to
`PARITY_NONE`. -/
theorem C10_get_serial_parity_spec (s : String) :
    (pyLower s = "none" → get_serial_parity s = .N) ∧
    (pyLower s = "even" → get_serial_parity s = .E) ∧
    (pyLower s = "odd" → get_serial_parity s = .O) ∧
    (pyLower s ≠ "none" → pyLower s ≠ "even" → pyLower s ≠ "odd" →
      get_serial_parity s = .N) := by
  refine ⟨fun h => by simp [get_serial_parity, h], fun h => ?_, fun h => ?_,
    fun h1 h2 h3 => by simp [get_serial_parity, h1, h2, h3]⟩
  · have hne : pyLower s ≠ "none" := by rw [h]; decide
    simp [get_serial_parity, h, hne]
  · have h1 : pyLower s ≠ "none" := by rw [h]; decide
    have h2 : pyLower s ≠ "even" := by rw [h]; decide
    simp [get_serial_parity, h, h1, h2]

theorem C10_get_serial_parity_spec_witness :
    get_serial_parity "EvEn" = .E ∧ get_serial_parity "ODD" = .O ∧
    get_serial_parity "Bogus" = .N :=
  ⟨(C10_get_serial_parity_spec "EvEn").2.1 (by decide),
   (C10_get_serial_parity_spec "ODD").2.2.1 (by decide),
   (C10_get_serial_parity_spec "Bogus").2.2.2 (by decide) (by decide) (by decide)⟩

end Uart
